import Mathlib

/-!
Verification development for the test-runner configuration resolution module
(`src/packages/test-runner/src/config/parseConfig.ts`).

The module resolves a final run configuration from three layered sources
(built-in defaults, the user configuration object, CLI-derived overrides),
resolves group-configuration overlays, negotiates browser launchers and
assembles the ordered plugin pipeline.

External collaborators (port finder, glob-based group collection, launcher
factories, plugin factories, `path.resolve`, the logger constructor) are not
part of the module; they are modelled abstractly through an `Env` record of
pure functions and opaque constructors, following the spec's collaborator
contracts (spec §6).  `mergeConfigs` is imported by the module but its source
file is not included; it is modelled from the spec (§4.2).
-/

set_option autoImplicit false

/-- A JavaScript value as far as this module inspects values: `null`
(standing for both `null` and, where a field is present, loose-null), strings,
numbers, booleans, arrays and other (opaque) objects.  `typeofJS` mirrors the
JavaScript `typeof` operator on these.  The module never inspects the
elements of an array value (it only ever asks `Array.isArray` and passes the
value along), so array contents are abstracted to an opaque identifier. -/
inductive JSVal where
  | null
  | str (s : String)
  | num (n : Int)
  | bool (b : Bool)
  | arr (id : Nat)
  | obj (id : Nat)
  deriving DecidableEq, Repr

/-- The JavaScript `typeof` operator restricted to `JSVal`. -/
def typeofJS : JSVal → String
  | .null => "object"
  | .str _ => "string"
  | .num _ => "number"
  | .bool _ => "boolean"
  | .arr _ => "object"
  | .obj _ => "object"

/-- JavaScript truthiness of a `JSVal`. -/
def jsTruthy : JSVal → Bool
  | .null => false
  | .str s => s ≠ ""
  | .num n => n ≠ 0
  | .bool b => b
  | .arr _ => true
  | .obj _ => true

/-- Whether an optional field value is loosely equal to `null` in JavaScript
(`x == null` holds exactly for `undefined` and `null`). `none` stands for
`undefined` (field absent). -/
def isNullish : Option JSVal → Bool
  | none => true
  | some .null => true
  | some _ => false

/-- Truthiness of an optional `JSVal` field (`undefined` is falsy). -/
def optTruthy : Option JSVal → Bool
  | none => false
  | some v => jsTruthy v

/-- The resolution failure taxonomy (spec §7).  Each constructor corresponds
to exactly one `throw` site of the module; `configValidation` carries the
offending key and the expected-type description from the thrown message. -/
inductive ConfigError where
  | configValidation (key expected : String)
  | missingRootDir
  | reservedGroupName
  | groupNotFound (name : String)
  | conflictingLauncher (flag : String)
  | invalidLauncherSelection
  deriving DecidableEq, Repr

/-- A plugin handle.  Plugins are opaque capability bundles (spec §3); this
module only controls their identity, order and presence.  `user` stands for a
user-supplied plugin, `checker` for the no-op import-analysis plugin named
"syntax-checker" built inline by the module, the three simulation plugins and
the two factory-built plugins carry the arguments the module passes to their
factories. -/
inductive Plugin where
  | user (id : Nat)
  | checker
  | setViewport
  | emulateMedia
  | setUserAgent
  | nodeResolve (rootDir : String) (preserveSymlinks : Option JSVal) (options : Option Nat)
  | esbuild (target : JSVal)
  deriving DecidableEq, Repr

/-- A browser-launcher handle.  Modelled from the spec: launcher factories
(`chromeLauncher`, `puppeteerLauncher(names?)`, `playwrightLauncher(names?)`)
are external collaborators; `user` stands for a launcher configured manually
by the user. -/
inductive Launcher where
  | chrome
  | puppeteer (names : Option (List String))
  | playwright (names : Option (List String))
  | user (id : Nat)
  deriving DecidableEq, Repr

/-- Modelled from the spec: `puppeteerLauncher` returns a launcher-handle
array, optionally scoped to a CLI-provided list of browser names (§6). -/
def puppeteerLauncher (names : Option (List String)) : List Launcher :=
  [Launcher.puppeteer names]

/-- Modelled from the spec: `playwrightLauncher` returns a launcher-handle
array, optionally scoped to a CLI-provided list of browser names (§6). -/
def playwrightLauncher (names : Option (List String)) : List Launcher :=
  [Launcher.playwright names]

/-- A reporter handle: the default reporter or a user-configured one. -/
inductive Reporter where
  | default
  | user (id : Nat)
  deriving DecidableEq, Repr

/-- A logger handle.  `default debug` is `new TestRunnerLogger(debug)` with
the debug-flag argument it was constructed with; `user` is a logger the user
configured. -/
inductive Logger where
  | default (debug : Option JSVal)
  | user (id : Nat)
  deriving DecidableEq, Repr

/-- The `testFramework` descriptor: a path plus opaque adapter options. -/
structure TestFramework where
  path : Option String := none
  config : Option Nat := none
  deriving DecidableEq, Repr

/-- The `nodeResolve` setting: `boolean | options object`. -/
inductive NodeResolveOpt where
  | bool (b : Bool)
  | obj (id : Nat)
  deriving DecidableEq, Repr

/-- Truthiness of the `nodeResolve` setting. -/
def nrTruthy : Option NodeResolveOpt → Bool
  | none => false
  | some (.bool b) => b
  | some (.obj _) => true

/-- The options object passed on to `nodeResolvePlugin`: the setting itself
when `typeof finalConfig.nodeResolve === 'object'`, otherwise `undefined`. -/
def nrUserOptions : Option NodeResolveOpt → Option Nat
  | some (.obj id) => some id
  | _ => none

/-- A group configuration overlay, reduced to the fields this module reads
(`name`, `files`); `id` stands for the remaining per-group payload so that
distinct group objects stay distinguishable. -/
structure GroupConfig where
  name : Option String := none
  files : Option JSVal := none
  id : Nat := 0
  deriving DecidableEq, Repr

/-- One entry of a `groups` list: an inline group object or a glob-pattern
string pointing at group-config files. -/
inductive GroupEntry where
  | inline (g : GroupConfig)
  | pattern (s : String)
  deriving DecidableEq, Repr

/-- The `groups` field: a single glob-pattern string or a mixed list. -/
inductive GroupsSpec where
  | single (pattern : String)
  | list (entries : List GroupEntry)
  deriving DecidableEq, Repr

/-- Truthiness of the `groups` field (`if (finalConfig.groups)`): absent is
falsy, an empty pattern string is falsy, any list (even empty) is truthy. -/
def groupsTruthy : Option GroupsSpec → Bool
  | none => false
  | some (.single s) => s ≠ ""
  | some (.list _) => true

/-- The inline group objects of a `groups` entry list, in order. -/
def inlineGroups (es : List GroupEntry) : List GroupConfig :=
  es.filterMap fun e => match e with | .inline g => some g | .pattern _ => none

/-- The glob-pattern strings of a `groups` entry list, in order. -/
def patternStrings (es : List GroupEntry) : List String :=
  es.filterMap fun e => match e with | .pattern s => some s | .inline _ => none

/-- The entry list denoted by the `groups` field once it is truthy: a single
string is wrapped into a one-element list. -/
def groupEntries : Option GroupsSpec → List GroupEntry
  | none => []
  | some (.single s) => [.pattern s]
  | some (.list es) => es

/-- The external collaborators of the module (spec §6), as pure functions:
the working directory, `path.resolve`, the free-port finder, the glob-based
group-config collector, the resolved default test-framework adapter path, and
the default concurrency computed from `os.cpus()`. -/
structure Env where
  cwd : String
  pathResolve : String → String
  getPort : Int → Int
  collectGroupConfigs : List String → List GroupConfig
  testFrameworkPath : String
  defaultConcurrency : Int

/-- The partial test-runner configuration, one optional field per key the
module reads or validates.  The primitive-typed keys (the validated ones)
hold raw `JSVal`s so that ill-typed user input is representable; structured
keys hold their structured values.  The type is parametric in the type `π` of
the `plugins` field so the same record serves the value-level model
(`π = List Plugin`) and the store-based model tracking array identity
(`π = Nat`). -/
structure TRConfigP (π : Type) where
  rootDir : Option JSVal := none
  protocol : Option String := none
  hostname : Option JSVal := none
  port : Option JSVal := none
  concurrentBrowsers : Option JSVal := none
  concurrency : Option JSVal := none
  browserStartTimeout : Option JSVal := none
  testsStartTimeout : Option JSVal := none
  testsFinishTimeout : Option JSVal := none
  watch : Option JSVal := none
  preserveSymlinks : Option JSVal := none
  browserLogs : Option JSVal := none
  coverage : Option JSVal := none
  staticLogging : Option JSVal := none
  manual : Option JSVal := none
  «open» : Option JSVal := none
  debug : Option JSVal := none
  esbuildTarget : Option JSVal := none
  files : Option JSVal := none
  groups : Option GroupsSpec := none
  browsers : Option (List Launcher) := none
  plugins : Option π := none
  middleware : Option (List Nat) := none
  nodeResolve : Option NodeResolveOpt := none
  testFramework : Option TestFramework := none
  reporters : Option (List Reporter) := none
  logger : Option Logger := none
  deriving DecidableEq, Repr

/-- The value-level configuration record (plugin lists as values). -/
abbrev TRConfig := TRConfigP (List Plugin)

/-- The store-based configuration record (the `plugins` field holds the index
of a plugin array in a store, modelling JavaScript array identity). -/
abbrev TRConfigSt := TRConfigP Nat

/-- The CLI arguments (spec §3 `CliArgs`): a partial configuration (`cfg`)
shadowed by the CLI-specific controls `group` (focus selector), the
`puppeteer`/`playwright` flags and the `browsers` name-list override.
Modelled from the spec: `readCliArgs` is not part of the included source. -/
structure TestRunnerCliArgs (π : Type) where
  cfg : TRConfigP π := {}
  group : Option String := none
  puppeteer : Bool := false
  playwright : Bool := false
  browsers : Option (List String) := none

/-- Later-source-wins for one key: the second source's value when it defines
one (non-`undefined`), otherwise the first's. -/
def ow {α : Type} (a b : Option α) : Option α :=
  match b with
  | some v => some v
  | none => a

/-- Modelled from the spec: one merge step of `mergeConfigs`
(`src/packages/test-runner/src/config/mergeConfigs.ts` is not included).
Spec §4.2: for each key, the last source that defines a non-undefined value
wins; this is a shallow per-key override, values are replaced wholesale. -/
def mergeTwo {π : Type} (a b : TRConfigP π) : TRConfigP π where
  rootDir := ow a.rootDir b.rootDir
  protocol := ow a.protocol b.protocol
  hostname := ow a.hostname b.hostname
  port := ow a.port b.port
  concurrentBrowsers := ow a.concurrentBrowsers b.concurrentBrowsers
  concurrency := ow a.concurrency b.concurrency
  browserStartTimeout := ow a.browserStartTimeout b.browserStartTimeout
  testsStartTimeout := ow a.testsStartTimeout b.testsStartTimeout
  testsFinishTimeout := ow a.testsFinishTimeout b.testsFinishTimeout
  watch := ow a.watch b.watch
  preserveSymlinks := ow a.preserveSymlinks b.preserveSymlinks
  browserLogs := ow a.browserLogs b.browserLogs
  coverage := ow a.coverage b.coverage
  staticLogging := ow a.staticLogging b.staticLogging
  manual := ow a.manual b.manual
  «open» := ow a.«open» b.«open»
  debug := ow a.debug b.debug
  esbuildTarget := ow a.esbuildTarget b.esbuildTarget
  files := ow a.files b.files
  groups := ow a.groups b.groups
  browsers := ow a.browsers b.browsers
  plugins := ow a.plugins b.plugins
  middleware := ow a.middleware b.middleware
  nodeResolve := ow a.nodeResolve b.nodeResolve
  testFramework := ow a.testFramework b.testFramework
  reporters := ow a.reporters b.reporters
  logger := ow a.logger b.logger

/-- Modelled from the spec: `mergeConfigs(defaultConfig, config, cliArgsConfig)`
merges the ordered sources left to right, later sources overriding (§4.2). -/
def mergeConfigs {π : Type} (a b c : TRConfigP π) : TRConfigP π :=
  mergeTwo (mergeTwo a b) c

/-- The built-in `defaultConfig` of the module, parametric in the default
value of the `plugins` field (`[]` in the value model, the module-level array
slot in the store model).  `rootDir` is `process.cwd()`, `concurrency` is
`Math.max(1, cpus().length / 2)`; both come from the environment. -/
def defaultConfigP {π : Type} (env : Env) (defPlugins : π) : TRConfigP π where
  rootDir := some (.str env.cwd)
  protocol := some "http:"
  hostname := some (.str "localhost")
  middleware := some []
  plugins := some defPlugins
  watch := some (.bool false)
  concurrentBrowsers := some (.num 2)
  concurrency := some (.num env.defaultConcurrency)
  browserStartTimeout := some (.num 30000)
  testsStartTimeout := some (.num 20000)
  testsFinishTimeout := some (.num 120000)
  browserLogs := some (.bool true)

/-- The built-in `defaultConfig` in the value model. -/
def defaultConfig (env : Env) : TRConfig := defaultConfigP env []

/-- The keys validated with expected type `string`. -/
def stringSettings : List String := ["rootDir", "hostname"]

/-- The keys validated with expected type `number`. -/
def numberSettings : List String :=
  ["port", "concurrentBrowsers", "concurrency", "browserStartTimeout",
   "testsStartTimeout", "testsFinishTimeout"]

/-- The keys validated with expected type `boolean`. -/
def booleanSettings : List String :=
  ["watch", "preserveSymlinks", "browserLogs", "coverage", "staticLogging",
   "manual", "open", "debug"]

/-- Key lookup on a raw configuration record (`config[key]`); `none` is an
absent key (`undefined`). -/
def lookupKey (config : List (String × JSVal)) (key : String) : Option JSVal :=
  (config.find? fun p => p.1 == key).map (·.2)

/-- The `validate` helper: skip an absent or `null` key, fail when the value
has the wrong `typeof`. -/
def validate (config : List (String × JSVal)) (key type_ : String) :
    Except ConfigError Unit :=
  match lookupKey config key with
  | none => .ok ()
  | some v =>
    if v = JSVal.null then .ok ()
    else if typeofJS v = type_ then .ok ()
    else .error (.configValidation key type_)

/-- The `forEach` loop over one list of keys sharing an expected type. -/
def validateKeys (config : List (String × JSVal)) (keys : List String)
    (type_ : String) : Except ConfigError Unit :=
  match keys with
  | [] => .ok ()
  | k :: rest => do
    validate config k type_
    validateKeys config rest type_

/-- Whether a value has the string-or-array shape accepted for
`esbuildTarget` and `files`. -/
def strOrArr : JSVal → Bool
  | .str _ => true
  | .arr _ => true
  | _ => false

/-- `validateConfig`: type-check the recognized keys; absent or `null` keys
are skipped, `esbuildTarget` and `files` additionally accept arrays, unknown
keys are never inspected. -/
def validateConfig (config : List (String × JSVal)) : Except ConfigError Unit := do
  validateKeys config stringSettings "string"
  validateKeys config numberSettings "number"
  validateKeys config booleanSettings "boolean"
  match lookupKey config "esbuildTarget" with
  | none => pure ()
  | some v =>
    if v = JSVal.null then pure ()
    else if strOrArr v then pure ()
    else Except.error (.configValidation "esbuildTarget" "string or array")
  match lookupKey config "files" with
  | none => pure ()
  | some v =>
    if v = JSVal.null then pure ()
    else if strOrArr v then pure ()
    else Except.error (.configValidation "files" "string or an array")

/-- One optional entry of the raw record view of a configuration. -/
def entryOf (key : String) (v : Option JSVal) : List (String × JSVal) :=
  match v with
  | some x => [(key, x)]
  | none => []

/-- The raw record view of a configuration restricted to the validated keys
(the only keys `validateConfig` inspects). -/
def toRecord {π : Type} (c : TRConfigP π) : List (String × JSVal) :=
  entryOf "rootDir" c.rootDir ++ entryOf "hostname" c.hostname ++
  entryOf "port" c.port ++ entryOf "concurrentBrowsers" c.concurrentBrowsers ++
  entryOf "concurrency" c.concurrency ++
  entryOf "browserStartTimeout" c.browserStartTimeout ++
  entryOf "testsStartTimeout" c.testsStartTimeout ++
  entryOf "testsFinishTimeout" c.testsFinishTimeout ++
  entryOf "watch" c.watch ++ entryOf "preserveSymlinks" c.preserveSymlinks ++
  entryOf "browserLogs" c.browserLogs ++ entryOf "coverage" c.coverage ++
  entryOf "staticLogging" c.staticLogging ++ entryOf "manual" c.manual ++
  entryOf "open" c.«open» ++ entryOf "debug" c.debug ++
  entryOf "esbuildTarget" c.esbuildTarget ++ entryOf "files" c.files

/-- The CLI-arguments record in the value model. -/
abbrev CliArgs := TestRunnerCliArgs (List Plugin)

/-- The CLI-arguments record in the store-based model. -/
abbrev CliArgsSt := TestRunnerCliArgs Nat

/-- The CLI-derived partial configuration: the CLI arguments spread into a
configuration with the shadowed `groups` and `browsers` fields removed, so
they never reach the generic merge. -/
def cliArgsConfigOf {π : Type} (cliArgs : TestRunnerCliArgs π) : TRConfigP π :=
  { cliArgs.cfg with groups := none, browsers := none }

/-- The merged configuration
`mergeConfigs(defaultConfig, config, cliArgsConfig)`, parametric in the
default plugins value. -/
def mergedOfP {π : Type} (env : Env) (defPlugins : π) (config : TRConfigP π)
    (cliArgs : TestRunnerCliArgs π) : TRConfigP π :=
  mergeConfigs (defaultConfigP env defPlugins) config (cliArgsConfigOf cliArgs)

/-- The merged configuration in the value model. -/
def mergedOf (env : Env) (config : TRConfig) (cliArgs : CliArgs) : TRConfig :=
  mergedOfP env [] config cliArgs

/-- The string content of the (resolved) `rootDir` field; the module reads it
with a non-null assertion when building the node-resolve plugin. -/
def rootDirStr {π : Type} (c : TRConfigP π) : String :=
  match c.rootDir with
  | some (.str s) => s
  | _ => ""

/-- The value of the `esbuildTarget` field as handed to `esbuildPlugin`. -/
def esbuildTargetVal {π : Type} (c : TRConfigP π) : JSVal :=
  (c.esbuildTarget).getD .null

/-- Resolve `rootDir` to an absolute path through `path.resolve`, or fail
with the missing-root-dir error when it is not a string. -/
def resolveRootDir {π : Type} (env : Env) (c : TRConfigP π) :
    Except ConfigError (TRConfigP π) :=
  match c.rootDir with
  | some (.str s) => .ok { c with rootDir := some (.str (env.pathResolve s)) }
  | _ => .error .missingRootDir

/-- Assign a port from the port finder (preferring candidate 8000) when no
numeric port is configured. -/
def resolvePort {π : Type} (env : Env) (c : TRConfigP π) : TRConfigP π :=
  match c.port with
  | some (.num _) => c
  | _ => { c with port := some (.num (env.getPort 8000)) }

/-- The flat group list expanded from the `groups` field: inline objects in
order, then the groups collected from the glob-pattern strings; empty when
the field is falsy. -/
def resolvedGroupList {π : Type} (env : Env) (c : TRConfigP π) : List GroupConfig :=
  if groupsTruthy c.groups then
    inlineGroups (groupEntries c.groups) ++
      env.collectGroupConfigs (patternStrings (groupEntries c.groups))
  else []

/-- Expand the `groups` field into a flat group list and fail when any
resolved group uses the reserved name "default". -/
def resolveGroups {π : Type} (env : Env) (c : TRConfigP π) :
    Except ConfigError (List GroupConfig) :=
  match (resolvedGroupList env c).find? fun g => g.name == some "default" with
  | some _ => .error .reservedGroupName
  | none => .ok (resolvedGroupList env c)

/-- Apply the CLI group focus selector: "default" empties the group list;
any other name selects the first group with that name (failing when none
exists), inheriting the root `files` when the group defines none and clearing
the root `files`. -/
def applyGroupFocus {π : Type} (cliArgs : TestRunnerCliArgs π)
    (finalConfig : TRConfigP π) (groupConfigs : List GroupConfig) :
    Except ConfigError (TRConfigP π × List GroupConfig) :=
  match cliArgs.group with
  | none => .ok (finalConfig, groupConfigs)
  | some g =>
    if g = "default" then .ok (finalConfig, [])
    else
      match groupConfigs.find? fun c => c.name == some g with
      | none => .error (.groupNotFound g)
      | some groupConfig =>
        let groupConfig :=
          if isNullish groupConfig.files then
            { groupConfig with files := finalConfig.files }
          else groupConfig
        .ok ({ finalConfig with files := none }, [groupConfig])

/-- Whether the `browsers` field is configured with at least one entry
(`finalConfig.browsers && finalConfig.browsers.length > 0`). -/
def hasConfiguredBrowsers {π : Type} (c : TRConfigP π) : Bool :=
  match c.browsers with
  | some bs => decide (bs.length > 0)
  | none => false

/-- Negotiate the launcher family: the `puppeteer` flag (then the
`playwright` flag) conflicts with manually configured browsers and otherwise
installs its launcher set scoped to the CLI browser names; with neither flag
a CLI browsers override is rejected and an absent `browsers` field defaults
to the single built-in chrome launcher. -/
def negotiateLaunchers {π : Type} (cliArgs : TestRunnerCliArgs π)
    (finalConfig : TRConfigP π) : Except ConfigError (TRConfigP π) :=
  if cliArgs.puppeteer then
    if hasConfiguredBrowsers finalConfig then
      .error (.conflictingLauncher "puppeteer")
    else .ok { finalConfig with browsers := some (puppeteerLauncher cliArgs.browsers) }
  else if cliArgs.playwright then
    if hasConfiguredBrowsers finalConfig then
      .error (.conflictingLauncher "playwright")
    else .ok { finalConfig with browsers := some (playwrightLauncher cliArgs.browsers) }
  else
    if cliArgs.browsers.isSome then .error .invalidLauncherSelection
    else
      match finalConfig.browsers with
      | none => .ok { finalConfig with browsers := some [Launcher.chrome] }
      | some _ => .ok finalConfig

/-- Fill in the default test-framework adapter path, shallow-merged under any
user-supplied descriptor (user keys win). -/
def fillTestFramework {π : Type} (env : Env) (c : TRConfigP π) : TRConfigP π :=
  { c with
    testFramework := some (match c.testFramework with
      | none => { path := some env.testFrameworkPath }
      | some tf =>
        { path := match tf.path with
            | some p => some p
            | none => some env.testFrameworkPath
          config := tf.config }) }

/-- Fill in the default reporter list when none is configured. -/
def fillReporters {π : Type} (c : TRConfigP π) : TRConfigP π :=
  match c.reporters with
  | some _ => c
  | none => { c with reporters := some [Reporter.default] }

/-- Construct the default logger when none is configured; its debug flag is
the `debug` field of the ORIGINAL user configuration object (`config.debug`
in the source, not the merged configuration). -/
def fillLogger {π : Type} (userDebug : Option JSVal) (c : TRConfigP π) :
    TRConfigP π :=
  match c.logger with
  | some _ => c
  | none => { c with logger := some (Logger.default userDebug) }

/-- Assemble the plugin pipeline (value model): normalize a missing plugin
list to empty, prepend the "syntax-checker" no-op plugin, prepend the three
command-simulation plugins, append the node-resolve plugin when the
`nodeResolve` option is truthy, and finally prepend the esbuild downleveling
plugin when `esbuildTarget` is truthy. -/
def assemblePlugins (c : TRConfig) : TRConfig :=
  let plugins := match c.plugins with
    | none => []
    | some ps => ps
  let plugins := Plugin.checker :: plugins
  let plugins := Plugin.setViewport :: Plugin.emulateMedia ::
    Plugin.setUserAgent :: plugins
  let plugins :=
    if nrTruthy c.nodeResolve then
      plugins ++ [Plugin.nodeResolve (rootDirStr c) c.preserveSymlinks
        (nrUserOptions c.nodeResolve)]
    else plugins
  let plugins :=
    if optTruthy c.esbuildTarget then
      Plugin.esbuild (esbuildTargetVal c) :: plugins
    else plugins
  { c with plugins := some plugins }

/-- The full configuration resolution (value model), sequencing merge,
validation, root-directory resolution, port assignment, group resolution,
CLI group focus, launcher negotiation, the default fills and plugin pipeline
assembly, exactly in source order. -/
def parseConfig (env : Env) (config : TRConfig) (cliArgs : CliArgs) :
    Except ConfigError (TRConfig × List GroupConfig) := do
  let mergedConfigs := mergedOf env config cliArgs
  validateConfig (toRecord mergedConfigs)
  let finalConfig ← resolveRootDir env mergedConfigs
  let finalConfig := resolvePort env finalConfig
  let groupConfigs ← resolveGroups env finalConfig
  let (finalConfig, groupConfigs) ← applyGroupFocus cliArgs finalConfig groupConfigs
  let finalConfig ← negotiateLaunchers cliArgs finalConfig
  let finalConfig := fillTestFramework env finalConfig
  let finalConfig := fillReporters finalConfig
  let finalConfig := fillLogger config.debug finalConfig
  return (assemblePlugins finalConfig, groupConfigs)

/-- Assemble the plugin pipeline in the store-based model, where the
`plugins` field of a configuration is the index of a plugin array in a store
of arrays.  `unshift`/`push` mutate the array in place at its index; a
missing plugin list allocates a fresh array. -/
def assemblePluginsSt (store : List (List Plugin)) (c : TRConfigSt) :
    TRConfigSt × List (List Plugin) :=
  let (ref, store) := match c.plugins with
    | some r => (r, store)
    | none => (store.length, store ++ [[]])
  let store := store.set ref (Plugin.checker :: store.getD ref [])
  let store := store.set ref (Plugin.setViewport :: Plugin.emulateMedia ::
    Plugin.setUserAgent :: store.getD ref [])
  let store :=
    if nrTruthy c.nodeResolve then
      store.set ref (store.getD ref [] ++ [Plugin.nodeResolve (rootDirStr c)
        c.preserveSymlinks (nrUserOptions c.nodeResolve)])
    else store
  let store :=
    if optTruthy c.esbuildTarget then
      store.set ref (Plugin.esbuild (esbuildTargetVal c) :: store.getD ref [])
    else store
  ({ c with plugins := some ref }, store)

/-- The full configuration resolution in the store-based model: identical to
`parseConfig` except that plugin arrays live in a threaded store so that
array identity (JavaScript aliasing) is observable.  Store slot 0 holds the
module-level `defaultConfig.plugins` array (created once at module load). -/
def parseConfigSt (env : Env) (store : List (List Plugin))
    (config : TRConfigSt) (cliArgs : CliArgsSt) :
    Except ConfigError ((TRConfigSt × List GroupConfig) × List (List Plugin)) := do
  let mergedConfigs := mergedOfP env 0 config cliArgs
  validateConfig (toRecord mergedConfigs)
  let finalConfig ← resolveRootDir env mergedConfigs
  let finalConfig := resolvePort env finalConfig
  let groupConfigs ← resolveGroups env finalConfig
  let (finalConfig, groupConfigs) ← applyGroupFocus cliArgs finalConfig groupConfigs
  let finalConfig ← negotiateLaunchers cliArgs finalConfig
  let finalConfig := fillTestFramework env finalConfig
  let finalConfig := fillReporters finalConfig
  let finalConfig := fillLogger config.debug finalConfig
  let (finalConfig, store) := assemblePluginsSt store finalConfig
  return ((finalConfig, groupConfigs), store)

/-- Whether a path string is absolute (POSIX). -/
def isAbsolute (s : String) : Bool :=
  match s.data with
  | '/' :: _ => true
  | _ => false

/-- A concrete sample environment used for witnesses and counterexamples:
its `path.resolve` returns a fixed absolute path, the port finder returns
8001, glob collection finds nothing. -/
def sampleEnv : Env where
  cwd := "/root"
  pathResolve := fun _ => "/root"
  getPort := fun _ => 8001
  collectGroupConfigs := fun _ => []
  testFrameworkPath := "autorun.js"
  defaultConcurrency := 4

/-- A sample input configuration: one user plugin, `nodeResolve: true` and
`esbuildTarget: "es2020"`. -/
def c1cfg : TRConfig :=
  { plugins := some [Plugin.user 7], nodeResolve := some (.bool true),
    esbuildTarget := some (.str "es2020") }

/-- The configuration resolved from `c1cfg` in the sample environment. -/
def c1res : TRConfig :=
  (((parseConfig sampleEnv c1cfg {}).toOption).getD ({}, [])).1

/-- The configuration resolved from the empty user configuration in the
sample environment. -/
def emptyRes : TRConfig :=
  (((parseConfig sampleEnv {} {}).toOption).getD ({}, [])).1

/-- A store-model input configuration whose `plugins` field references store
slot 1 (the user's plugin array). -/
def c8cfg : TRConfigSt := { rootDir := some (.str "/a"), plugins := some 1 }

/-- The initial store for the double-resolution scenario: slot 0 is the
module-level default plugins array, slot 1 the user's array with one
plugin. -/
def c8store0 : List (List Plugin) := [[], [Plugin.user 0]]

/-- The first resolution of `c8cfg`. -/
def c8run1 := parseConfigSt sampleEnv c8store0 c8cfg {}

/-- The store as left behind by the first resolution. -/
def c8store1 : List (List Plugin) :=
  [[], [Plugin.setViewport, Plugin.emulateMedia, Plugin.setUserAgent,
    Plugin.checker, Plugin.user 0]]

/-- The second resolution of the same input configuration, starting from the
store the first resolution left behind. -/
def c8run2 := parseConfigSt sampleEnv c8store1 c8cfg {}

/-- The plugin-array reference of a store-model resolution result. -/
def runPluginsRef
    (r : Except ConfigError ((TRConfigSt × List GroupConfig) × List (List Plugin))) :
    Option Nat :=
  match r with
  | .ok ((c, _), _) => c.plugins
  | .error _ => none

/-- The final store of a store-model resolution result. -/
def runStore
    (r : Except ConfigError ((TRConfigSt × List GroupConfig) × List (List Plugin))) :
    Option (List (List Plugin)) :=
  match r with
  | .ok (_, st) => some st
  | .error _ => none

/-- The contents of one store slot after a store-model resolution. -/
def runStoreAt
    (r : Except ConfigError ((TRConfigSt × List GroupConfig) × List (List Plugin)))
    (i : Nat) : Option (List Plugin) :=
  match r with
  | .ok (_, st) => some (st.getD i [])
  | .error _ => none

/-- Whether an optional field value is a string. -/
def isStrOpt : Option JSVal → Bool
  | some (.str _) => true
  | _ => false

/-- Whether an optional field value is a number. -/
def isNumOpt : Option JSVal → Bool
  | some (.num _) => true
  | _ => false

/-- Well-typedness of one record entry with respect to the recognized keys:
any key in a settings list must hold `null` or a value of the expected type;
unrecognized keys are unconstrained. -/
@[reducible] def keyTypeOK (k : String) (v : JSVal) : Prop :=
  (k ∈ stringSettings → v = .null ∨ typeofJS v = "string") ∧
  (k ∈ numberSettings → v = .null ∨ typeofJS v = "number") ∧
  (k ∈ booleanSettings → v = .null ∨ typeofJS v = "boolean") ∧
  (k = "esbuildTarget" → v = .null ∨ strOrArr v = true) ∧
  (k = "files" → v = .null ∨ strOrArr v = true)

/-- Binding an error short-circuits. -/
@[simp] theorem exceptBind_error {ε α β : Type} (e : ε) (f : α → Except ε β) :
    (Except.error e >>= f) = .error e := rfl

/-- Binding a success continues with the value. -/
@[simp] theorem exceptBind_ok {ε α β : Type} (a : α) (f : α → Except ε β) :
    (Except.ok a >>= f) = f a := rfl

/-- Inversion of a successful `Except` bind. -/
theorem bind_eq_ok {ε α β : Type} {x : Except ε α} {f : α → Except ε β} {b : β}
    (h : x >>= f = .ok b) : ∃ a, x = .ok a ∧ f a = .ok b := by
  cases x with
  | error e => exact absurd h (by simp)
  | ok a => exact ⟨a, rfl, h⟩

/-- A successful key lookup returns an entry of the record. -/
theorem lookupKey_mem {cfg : List (String × JSVal)} {k : String} {v : JSVal}
    (h : lookupKey cfg k = some v) : (k, v) ∈ cfg := by
  unfold lookupKey at h
  cases hf : cfg.find? (fun p => p.1 == k) with
  | none => rw [hf] at h; cases h
  | some p =>
    rw [hf] at h
    have hp : p ∈ cfg := List.mem_of_find?_eq_some hf
    have hk : p.1 = k := by
      have := List.find?_some hf
      simpa using this
    have hv : p.2 = v := by simpa using h
    rw [← hk, ← hv]
    exact hp

/-- `find?` returns the first element satisfying the predicate. -/
theorem find?_first {α : Type} (p : α → Bool) (pre post : List α) (a : α)
    (hpre : ∀ x ∈ pre, p x = false) (ha : p a = true) :
    (pre ++ a :: post).find? p = some a := by
  induction pre with
  | nil => simp [List.find?_cons, ha]
  | cons x xs ih =>
    have hx := hpre x (by simp)
    simp only [List.cons_append, List.find?_cons, hx]
    exact ih fun y hy => hpre y (by simp [hy])

/-- A key list whose looked-up values are all well typed validates. -/
theorem validateKeys_ok (cfg : List (String × JSVal)) (keys : List String)
    (t : String)
    (h : ∀ k ∈ keys, ∀ v, lookupKey cfg k = some v → v = .null ∨ typeofJS v = t) :
    validateKeys cfg keys t = .ok () := by
  induction keys with
  | nil => rfl
  | cons k rest ih =>
    have hval : validate cfg k t = .ok () := by
      unfold validate
      cases hl : lookupKey cfg k with
      | none => rfl
      | some v =>
        rcases h k (by simp) v hl with h1 | h1
        · simp [h1]
        · by_cases hn : v = JSVal.null <;> simp [hn, h1]
    simpa [validateKeys, hval] using ih fun k hk => h k (by simp [hk])

/-- Injectivity of a successful `Except` result. -/
theorem exceptOk_inj {ε α : Type} {a a' : α} (h : (Except.ok a : Except ε α) = .ok a') :
    a = a' := (Except.ok.injEq _ _).mp h

/-- Injectivity of a successful `Except` result carrying a pair. -/
theorem exceptOk_pair_inj {ε α β : Type} {a a' : α} {b b' : β}
    (h : (Except.ok (a, b) : Except ε (α × β)) = .ok (a', b')) : a = a' ∧ b = b' := by
  have := (Except.ok.injEq _ _).mp h
  exact (Prod.mk.injEq _ _ _ _).mp this

/-- Inversion of a successful root-directory resolution. -/
theorem resolveRootDir_ok {π : Type} {env : Env} {c c' : TRConfigP π}
    (h : resolveRootDir env c = .ok c') :
    ∃ s, c.rootDir = some (.str s) ∧
      c' = { c with rootDir := some (.str (env.pathResolve s)) } := by
  unfold resolveRootDir at h
  split at h
  next s hr => exact ⟨s, hr, (exceptOk_inj h).symm⟩
  next => cases h

/-- A nullish root directory fails resolution. -/
theorem resolveRootDir_nullish {π : Type} {env : Env} {c : TRConfigP π}
    (h : isNullish c.rootDir = true) :
    resolveRootDir env c = .error .missingRootDir := by
  unfold resolveRootDir
  split
  next s hr => rw [hr] at h; cases h
  next => rfl

/-- Port resolution always yields a numeric port. -/
theorem resolvePort_num {π : Type} (env : Env) (c : TRConfigP π) :
    ∃ n : Int, (resolvePort env c).port = some (.num n) := by
  unfold resolvePort
  split
  next n hp => exact ⟨n, hp⟩
  next => exact ⟨env.getPort 8000, rfl⟩

/-- Without a numeric port, port resolution takes the port finder's value
for preferred candidate 8000. -/
theorem resolvePort_not_num {π : Type} {env : Env} {c : TRConfigP π}
    (h : ∀ n : Int, c.port ≠ some (.num n)) :
    (resolvePort env c).port = some (.num (env.getPort 8000)) := by
  unfold resolvePort
  split
  next n hp => exact absurd hp (h n)
  next => rfl

/-- Port resolution leaves every field except `port` unchanged. -/
theorem resolvePort_fields {π : Type} (env : Env) (c : TRConfigP π) :
    (resolvePort env c).rootDir = c.rootDir ∧
    (resolvePort env c).plugins = c.plugins ∧
    (resolvePort env c).nodeResolve = c.nodeResolve ∧
    (resolvePort env c).esbuildTarget = c.esbuildTarget ∧
    (resolvePort env c).preserveSymlinks = c.preserveSymlinks ∧
    (resolvePort env c).logger = c.logger ∧
    (resolvePort env c).browsers = c.browsers := by
  unfold resolvePort
  split
  next => exact ⟨rfl, rfl, rfl, rfl, rfl, rfl, rfl⟩
  next => exact ⟨rfl, rfl, rfl, rfl, rfl, rfl, rfl⟩

/-- Group focus only ever touches the `files` field of the configuration. -/
theorem applyGroupFocus_ok_fields {π : Type} {cli : TestRunnerCliArgs π}
    {c c' : TRConfigP π} {gs gs' : List GroupConfig}
    (h : applyGroupFocus cli c gs = .ok (c', gs')) :
    c'.rootDir = c.rootDir ∧ c'.port = c.port ∧ c'.plugins = c.plugins ∧
    c'.nodeResolve = c.nodeResolve ∧ c'.esbuildTarget = c.esbuildTarget ∧
    c'.preserveSymlinks = c.preserveSymlinks ∧ c'.logger = c.logger ∧
    c'.browsers = c.browsers := by
  unfold applyGroupFocus at h
  split at h
  · obtain ⟨hc, -⟩ := exceptOk_pair_inj h
    subst hc
    exact ⟨rfl, rfl, rfl, rfl, rfl, rfl, rfl, rfl⟩
  · split at h
    · obtain ⟨hc, -⟩ := exceptOk_pair_inj h
      subst hc
      exact ⟨rfl, rfl, rfl, rfl, rfl, rfl, rfl, rfl⟩
    · split at h
      · cases h
      · obtain ⟨hc, -⟩ := exceptOk_pair_inj h
        subst hc
        exact ⟨rfl, rfl, rfl, rfl, rfl, rfl, rfl, rfl⟩

/-- Launcher negotiation only ever touches the `browsers` field. -/
theorem negotiateLaunchers_ok_fields {π : Type} {cli : TestRunnerCliArgs π}
    {c c' : TRConfigP π} (h : negotiateLaunchers cli c = .ok c') :
    c'.rootDir = c.rootDir ∧ c'.port = c.port ∧ c'.plugins = c.plugins ∧
    c'.nodeResolve = c.nodeResolve ∧ c'.esbuildTarget = c.esbuildTarget ∧
    c'.preserveSymlinks = c.preserveSymlinks ∧ c'.logger = c.logger := by
  unfold negotiateLaunchers at h
  split at h
  · split at h
    · cases h
    · have hc := exceptOk_inj h
      subst hc
      exact ⟨rfl, rfl, rfl, rfl, rfl, rfl, rfl⟩
  · split at h
    · split at h
      · cases h
      · have hc := exceptOk_inj h
        subst hc
        exact ⟨rfl, rfl, rfl, rfl, rfl, rfl, rfl⟩
    · split at h
      · cases h
      · split at h
        · have hc := exceptOk_inj h
          subst hc
          exact ⟨rfl, rfl, rfl, rfl, rfl, rfl, rfl⟩
        · have hc := exceptOk_inj h
          subst hc
          exact ⟨rfl, rfl, rfl, rfl, rfl, rfl, rfl⟩

/-- The test-framework fill only touches the `testFramework` field. -/
theorem fillTestFramework_fields {π : Type} (env : Env) (c : TRConfigP π) :
    (fillTestFramework env c).rootDir = c.rootDir ∧
    (fillTestFramework env c).port = c.port ∧
    (fillTestFramework env c).plugins = c.plugins ∧
    (fillTestFramework env c).nodeResolve = c.nodeResolve ∧
    (fillTestFramework env c).esbuildTarget = c.esbuildTarget ∧
    (fillTestFramework env c).preserveSymlinks = c.preserveSymlinks ∧
    (fillTestFramework env c).logger = c.logger ∧
    (fillTestFramework env c).browsers = c.browsers := by
  exact ⟨rfl, rfl, rfl, rfl, rfl, rfl, rfl, rfl⟩

/-- The reporter fill only touches the `reporters` field. -/
theorem fillReporters_fields {π : Type} (c : TRConfigP π) :
    (fillReporters c).rootDir = c.rootDir ∧
    (fillReporters c).port = c.port ∧
    (fillReporters c).plugins = c.plugins ∧
    (fillReporters c).nodeResolve = c.nodeResolve ∧
    (fillReporters c).esbuildTarget = c.esbuildTarget ∧
    (fillReporters c).preserveSymlinks = c.preserveSymlinks ∧
    (fillReporters c).logger = c.logger ∧
    (fillReporters c).browsers = c.browsers := by
  unfold fillReporters
  cases hr : c.reporters <;> exact ⟨rfl, rfl, rfl, rfl, rfl, rfl, rfl, rfl⟩

/-- The logger fill only touches the `logger` field. -/
theorem fillLogger_fields {π : Type} (d : Option JSVal) (c : TRConfigP π) :
    (fillLogger d c).rootDir = c.rootDir ∧
    (fillLogger d c).port = c.port ∧
    (fillLogger d c).plugins = c.plugins ∧
    (fillLogger d c).nodeResolve = c.nodeResolve ∧
    (fillLogger d c).esbuildTarget = c.esbuildTarget ∧
    (fillLogger d c).preserveSymlinks = c.preserveSymlinks ∧
    (fillLogger d c).browsers = c.browsers := by
  unfold fillLogger
  cases hl : c.logger <;> exact ⟨rfl, rfl, rfl, rfl, rfl, rfl, rfl⟩

/-- With no logger configured the fill installs the default logger carrying
the debug flag it was handed. -/
theorem fillLogger_default {π : Type} {d : Option JSVal} {c : TRConfigP π}
    (h : c.logger = none) : (fillLogger d c).logger = some (Logger.default d) := by
  unfold fillLogger
  rw [h]

/-- Plugin assembly only touches the `plugins` field. -/
theorem assemblePlugins_fields (c : TRConfig) :
    (assemblePlugins c).rootDir = c.rootDir ∧
    (assemblePlugins c).port = c.port ∧
    (assemblePlugins c).logger = c.logger ∧
    (assemblePlugins c).browsers = c.browsers := by
  exact ⟨rfl, rfl, rfl, rfl⟩

/-- The plugin list produced by assembly, for a configured plugin list:
optionally the esbuild plugin, the three simulation plugins, the
"syntax-checker" plugin, the user plugins, optionally the node-resolve
plugin. -/
theorem assemblePlugins_plugins {c : TRConfig} {qs : List Plugin}
    (h : c.plugins = some qs) :
    (assemblePlugins c).plugins = some (
      (if optTruthy c.esbuildTarget then [Plugin.esbuild (esbuildTargetVal c)] else []) ++
      [Plugin.setViewport, Plugin.emulateMedia, Plugin.setUserAgent, Plugin.checker] ++
      qs ++
      (if nrTruthy c.nodeResolve then
        [Plugin.nodeResolve (rootDirStr c) c.preserveSymlinks (nrUserOptions c.nodeResolve)]
      else [])) := by
  unfold assemblePlugins
  rw [h]
  by_cases hnr : nrTruthy c.nodeResolve <;>
    by_cases het : optTruthy c.esbuildTarget <;> simp [hnr, het]

/-- Destructure a successful full resolution into its successful stages. -/
theorem parseConfig_ok_destruct {env : Env} {cfg : TRConfig} {cli : CliArgs}
    {res : TRConfig} {grps : List GroupConfig}
    (hok : parseConfig env cfg cli = .ok (res, grps)) :
    ∃ c1 gs1 c2 gs2 c3,
      validateConfig (toRecord (mergedOf env cfg cli)) = .ok () ∧
      resolveRootDir env (mergedOf env cfg cli) = .ok c1 ∧
      resolveGroups env (resolvePort env c1) = .ok gs1 ∧
      applyGroupFocus cli (resolvePort env c1) gs1 = .ok (c2, gs2) ∧
      negotiateLaunchers cli c2 = .ok c3 ∧
      res = assemblePlugins (fillLogger cfg.debug (fillReporters (fillTestFramework env c3))) ∧
      grps = gs2 := by
  unfold parseConfig at hok
  obtain ⟨u, h1, hok⟩ := bind_eq_ok hok
  obtain ⟨c1, h2, hok⟩ := bind_eq_ok hok
  obtain ⟨gs1, h3, hok⟩ := bind_eq_ok hok
  obtain ⟨p, h4, hok⟩ := bind_eq_ok hok
  obtain ⟨c2, gs2⟩ := p
  obtain ⟨c3, h5, hok⟩ := bind_eq_ok hok
  have hpair := (Except.ok.injEq _ _).mp hok
  obtain ⟨hres, hgrps⟩ := (Prod.mk.injEq _ _ _ _).mp hpair
  cases u
  exact ⟨c1, gs1, c2, gs2, c3, h1, h2, h3, h4, h5, hres.symm, hgrps.symm⟩

/-- C1: for every resolution whose input has user plugins `ps` (and no CLI
plugin override), a truthy `nodeResolve` option and a truthy `esbuildTarget`,
the plugin list of the returned configuration is exactly, front to back: the
esbuild downleveling plugin, the viewport plugin, the media-emulation plugin,
the user-agent plugin, the syntax-checker plugin, the user plugins in their
original order, and the node-resolve plugin.  Moreover assembly itself is
total: for any configuration with plugin list `qs` it produces the optional
esbuild plugin, the three simulation plugins, the syntax-checker plugin, `qs`
and the optional node-resolve plugin, each optional element present exactly
when its controlling option is set (truthy). -/
theorem parseConfig_plugin_pipeline_order (env : Env) (cfg : TRConfig)
    (cli : CliArgs) (ps : List Plugin) (res : TRConfig) (grps : List GroupConfig)
    (hp : cfg.plugins = some ps)
    (hcli : cli.cfg.plugins = none)
    (hnr : nrTruthy (mergedOf env cfg cli).nodeResolve = true)
    (het : optTruthy (mergedOf env cfg cli).esbuildTarget = true)
    (hok : parseConfig env cfg cli = .ok (res, grps)) :
    (∃ t r sym opts, res.plugins =
      some ([Plugin.esbuild t, Plugin.setViewport, Plugin.emulateMedia,
        Plugin.setUserAgent, Plugin.checker] ++ ps ++ [Plugin.nodeResolve r sym opts])) ∧
    (∀ (c : TRConfig) (qs : List Plugin), c.plugins = some qs →
      (assemblePlugins c).plugins = some (
        (if optTruthy c.esbuildTarget then [Plugin.esbuild (esbuildTargetVal c)] else []) ++
        [Plugin.setViewport, Plugin.emulateMedia, Plugin.setUserAgent, Plugin.checker] ++
        qs ++
        (if nrTruthy c.nodeResolve then
          [Plugin.nodeResolve (rootDirStr c) c.preserveSymlinks (nrUserOptions c.nodeResolve)]
        else []))) := by
  refine ⟨?_, fun c qs h => assemblePlugins_plugins h⟩
  obtain ⟨c1, gs1, c2, gs2, c3, hv, h2, h3, h4, h5, hres, hgrps⟩ :=
    parseConfig_ok_destruct hok
  obtain ⟨s, hs, hc1⟩ := resolveRootDir_ok h2
  have hm : (mergedOf env cfg cli).plugins = some ps := by
    simp [mergedOf, mergedOfP, mergeConfigs, mergeTwo, cliArgsConfigOf,
      defaultConfigP, ow, hp, hcli]
  have hc1p : c1.plugins = some ps := by rw [hc1]; exact hm
  have hc1nr : c1.nodeResolve = (mergedOf env cfg cli).nodeResolve := by rw [hc1]
  have hc1et : c1.esbuildTarget = (mergedOf env cfg cli).esbuildTarget := by rw [hc1]
  obtain ⟨-, hrp, hrnr, hret, -, -, -⟩ := resolvePort_fields env c1
  obtain ⟨-, -, hfp, hfnr, hfet, -, -, -⟩ := applyGroupFocus_ok_fields h4
  obtain ⟨-, -, hnp, hnnr, hnet, -, -⟩ := negotiateLaunchers_ok_fields h5
  obtain ⟨-, -, htp, htnr, htet, -, -, -⟩ :=
    fillTestFramework_fields env c3
  obtain ⟨-, -, hrpp, hrpnr, hrpet, -, -, -⟩ :=
    fillReporters_fields (fillTestFramework env c3)
  obtain ⟨-, -, hlp, hlnr, hlet, -, -⟩ :=
    fillLogger_fields cfg.debug (fillReporters (fillTestFramework env c3))
  set cfin := fillLogger cfg.debug (fillReporters (fillTestFramework env c3)) with hcfin
  have hfinp : cfin.plugins = some ps := by
    rw [hlp, hrpp, htp, hnp, hfp, hrp, hc1p]
  have hfinnr : nrTruthy cfin.nodeResolve = true := by
    rw [hlnr, hrpnr, htnr, hnnr, hfnr, hrnr, hc1nr]; exact hnr
  have hfinet : optTruthy cfin.esbuildTarget = true := by
    rw [hlet, hrpet, htet, hnet, hfet, hret, hc1et]; exact het
  refine ⟨esbuildTargetVal cfin, rootDirStr cfin, cfin.preserveSymlinks,
    nrUserOptions cfin.nodeResolve, ?_⟩
  rw [hres]
  rw [assemblePlugins_plugins hfinp, if_pos hfinnr, if_pos hfinet]
  simp

/-- Witness for the plugin-pipeline theorem at a concrete input: one user
plugin, `nodeResolve: true`, `esbuildTarget: "es2020"`. -/
theorem parseConfig_plugin_pipeline_order_witness :
    ∃ t r sym opts, c1res.plugins =
      some ([Plugin.esbuild t, Plugin.setViewport, Plugin.emulateMedia,
        Plugin.setUserAgent, Plugin.checker] ++ [Plugin.user 7] ++
        [Plugin.nodeResolve r sym opts]) :=
  (parseConfig_plugin_pipeline_order sampleEnv c1cfg {} [Plugin.user 7] c1res []
    rfl rfl rfl rfl rfl).1

/-- `pure` on `Except` is success. -/
@[simp] theorem exceptPure {ε α : Type} (a : α) :
    (pure a : Except ε α) = .ok a := rfl

/-- A nonempty configured browsers list counts as configured. -/
theorem hasConfiguredBrowsers_true {π : Type} {c : TRConfigP π}
    (bs : List Launcher) (h : c.browsers = some bs) (hne : bs ≠ []) :
    hasConfiguredBrowsers c = true := by
  unfold hasConfiguredBrowsers
  rw [h]
  simpa [List.length_pos] using hne

/-- An absent or empty browsers list does not count as configured. -/
theorem hasConfiguredBrowsers_false {π : Type} {c : TRConfigP π}
    (h : ∀ bs, c.browsers = some bs → bs = []) :
    hasConfiguredBrowsers c = false := by
  unfold hasConfiguredBrowsers
  cases hb : c.browsers with
  | none => rfl
  | some bs => simp [h bs hb]

/-- C2: launcher negotiation has three mutually exclusive paths.  With the
puppeteer flag, a browsers field configured with at least one entry is a
conflict, otherwise browsers becomes the puppeteer-backed launcher set scoped
to the CLI browser-name list; the playwright flag behaves the same with the
playwright-backed set; with neither flag a CLI browsers override fails with
the invalid-selection error, and an entirely absent browsers field defaults
to exactly one built-in chrome launcher. -/
theorem negotiateLaunchers_three_paths (cli : CliArgs) (c : TRConfig) :
    (cli.puppeteer = true →
      ((∃ bs, c.browsers = some bs ∧ bs ≠ []) →
        negotiateLaunchers cli c = .error (.conflictingLauncher "puppeteer")) ∧
      ((∀ bs, c.browsers = some bs → bs = []) →
        negotiateLaunchers cli c =
          .ok { c with browsers := some (puppeteerLauncher cli.browsers) })) ∧
    (cli.puppeteer = false → cli.playwright = true →
      ((∃ bs, c.browsers = some bs ∧ bs ≠ []) →
        negotiateLaunchers cli c = .error (.conflictingLauncher "playwright")) ∧
      ((∀ bs, c.browsers = some bs → bs = []) →
        negotiateLaunchers cli c =
          .ok { c with browsers := some (playwrightLauncher cli.browsers) })) ∧
    (cli.puppeteer = false → cli.playwright = false →
      (cli.browsers ≠ none →
        negotiateLaunchers cli c = .error .invalidLauncherSelection) ∧
      (cli.browsers = none → c.browsers = none →
        negotiateLaunchers cli c = .ok { c with browsers := some [Launcher.chrome] })) := by
  refine ⟨fun hpup => ⟨?_, ?_⟩, fun hpup hplay => ⟨?_, ?_⟩, fun hpup hplay => ⟨?_, ?_⟩⟩
  · rintro ⟨bs, hb, hne⟩
    simp [negotiateLaunchers, hpup, hasConfiguredBrowsers_true bs hb hne]
  · intro hall
    simp [negotiateLaunchers, hpup, hasConfiguredBrowsers_false hall]
  · rintro ⟨bs, hb, hne⟩
    simp [negotiateLaunchers, hpup, hplay, hasConfiguredBrowsers_true bs hb hne]
  · intro hall
    simp [negotiateLaunchers, hpup, hplay, hasConfiguredBrowsers_false hall]
  · intro hb
    have : cli.browsers.isSome = true := by
      cases hcb : cli.browsers with
      | none => exact absurd hcb hb
      | some _ => rfl
    simp [negotiateLaunchers, hpup, hplay, this]
  · intro hb hcb
    simp [negotiateLaunchers, hpup, hplay, hb, hcb]

/-- Witness for launcher negotiation at concrete inputs: conflict with
manual browsers under each flag, the scoped launcher set, the invalid CLI
browsers override, and the chrome default. -/
theorem negotiateLaunchers_three_paths_witness :
    negotiateLaunchers ({ puppeteer := true } : CliArgs)
        { browsers := some [Launcher.user 1] } =
      .error (.conflictingLauncher "puppeteer") ∧
    negotiateLaunchers ({ puppeteer := true, browsers := some ["chromium"] } : CliArgs) {} =
      .ok { browsers := some (puppeteerLauncher (some ["chromium"])) } ∧
    negotiateLaunchers ({ playwright := true } : CliArgs)
        { browsers := some [Launcher.user 2] } =
      .error (.conflictingLauncher "playwright") ∧
    negotiateLaunchers ({ browsers := some ["firefox"] } : CliArgs) {} =
      .error .invalidLauncherSelection ∧
    negotiateLaunchers ({} : CliArgs) {} = .ok { browsers := some [Launcher.chrome] } := by
  refine ⟨((negotiateLaunchers_three_paths _ _).1 rfl).1 ⟨[Launcher.user 1], rfl, by decide⟩,
    ((negotiateLaunchers_three_paths _ _).1 rfl).2 (fun bs h => by cases h),
    ((negotiateLaunchers_three_paths _ _).2.1 rfl rfl).1 ⟨[Launcher.user 2], rfl, by decide⟩,
    ((negotiateLaunchers_three_paths _ _).2.2 rfl rfl).1 (by decide),
    ((negotiateLaunchers_three_paths _ _).2.2 rfl rfl).2 rfl rfl⟩

/-- C3: the CLI group focus selector.  "default" empties the group list
regardless of the groups; a name matching no group fails with the
group-not-found error; otherwise exactly the first group with that name (in
scan order) is kept, inheriting the root `files` when it defines none, and
the root `files` field is cleared. -/
theorem applyGroupFocus_spec (cli : CliArgs) (c : TRConfig)
    (gs : List GroupConfig) :
    (cli.group = some "default" → applyGroupFocus cli c gs = .ok (c, [])) ∧
    (∀ g, cli.group = some g → g ≠ "default" → (∀ x ∈ gs, x.name ≠ some g) →
      applyGroupFocus cli c gs = .error (.groupNotFound g)) ∧
    (∀ g pre gc post, cli.group = some g → g ≠ "default" →
      gs = pre ++ gc :: post → (∀ x ∈ pre, x.name ≠ some g) → gc.name = some g →
      applyGroupFocus cli c gs =
        .ok ({ c with files := none },
          [if isNullish gc.files then { gc with files := c.files } else gc])) := by
  refine ⟨?_, ?_, ?_⟩
  · intro h
    simp [applyGroupFocus, h]
  · intro g hg hne hall
    have hfind : gs.find? (fun x => x.name == some g) = none := by
      rw [List.find?_eq_none]
      intro x hx
      simpa using hall x hx
    simp [applyGroupFocus, hg, hne, hfind]
  · intro g pre gc post hg hne hgs hpre hgc
    have hfind : gs.find? (fun x => x.name == some g) = some gc := by
      rw [hgs]
      exact find?_first _ pre post gc
        (fun x hx => by simpa using hpre x hx) (by simp [hgc])
    simp [applyGroupFocus, hg, hne, hfind]

/-- Witness for group focus at concrete inputs: the "default" collapse, a
missing group, and a first-match focus inheriting the root files. -/
theorem applyGroupFocus_spec_witness :
    applyGroupFocus ({ group := some "default" } : CliArgs) {}
        [{ name := some "a" }] = .ok ({}, []) ∧
    applyGroupFocus ({ group := some "a" } : CliArgs) {}
        [{ name := some "b" }] = .error (.groupNotFound "a") ∧
    applyGroupFocus ({ group := some "a" } : CliArgs)
        { files := some (.str "root-files") }
        [{ name := some "b" }, { name := some "a", id := 1 },
          { name := some "a", id := 2 }] =
      .ok ({ files := none },
        [{ name := some "a", files := some (.str "root-files"), id := 1 }]) := by
  refine ⟨(applyGroupFocus_spec _ _ _).1 rfl,
    (applyGroupFocus_spec _ _ _).2.1 "a" rfl (by decide)
      (by intro x hx; fin_cases hx <;> decide),
    ?_⟩
  have h := (applyGroupFocus_spec ({ group := some "a" } : CliArgs)
    { files := some (.str "root-files") } _).2.2 "a"
    [{ name := some "b" }] { name := some "a", id := 1 }
    [{ name := some "a", id := 2 }] rfl (by decide) rfl
    (by intro x hx; fin_cases hx <;> decide) rfl
  simpa using h

/-- C4: group resolution fails with the reserved-name error exactly when
some resolved group — inline or collected from a glob pattern — is named
"default"; otherwise the resolved list is the inline group objects in order
followed by the glob-resolved group objects. -/
theorem resolveGroups_reserved_and_order (env : Env) (c : TRConfig)
    (es : List GroupEntry) (h : c.groups = some (.list es)) :
    ((∃ g ∈ inlineGroups es ++ env.collectGroupConfigs (patternStrings es),
        g.name = some "default") →
      resolveGroups env c = .error .reservedGroupName) ∧
    ((∀ g ∈ inlineGroups es ++ env.collectGroupConfigs (patternStrings es),
        g.name ≠ some "default") →
      resolveGroups env c = .ok
        (inlineGroups es ++ env.collectGroupConfigs (patternStrings es))) := by
  have hL : resolvedGroupList env c =
      inlineGroups es ++ env.collectGroupConfigs (patternStrings es) := by
    unfold resolvedGroupList
    rw [h]
    rfl
  constructor
  · rintro ⟨g, hg, hname⟩
    unfold resolveGroups
    rw [hL]
    cases hfind : (inlineGroups es ++ env.collectGroupConfigs (patternStrings es)).find?
        fun x => x.name == some "default" with
    | some g0 => rfl
    | none =>
      have := List.find?_eq_none.mp hfind g hg
      simp [hname] at this
  · intro hall
    unfold resolveGroups
    rw [hL]
    cases hfind : (inlineGroups es ++ env.collectGroupConfigs (patternStrings es)).find?
        fun x => x.name == some "default" with
    | none => rfl
    | some g0 =>
      have hmem := List.mem_of_find?_eq_some hfind
      have hp := List.find?_some hfind
      exact absurd (by simpa using hp) (hall g0 hmem)

/-- Witness for group resolution at concrete inputs: an inline group named
"default" is rejected; a mixed list otherwise resolves to the inline groups
followed by the (here empty) collected groups. -/
theorem resolveGroups_reserved_and_order_witness :
    resolveGroups sampleEnv
      ({ groups := some (.list [.inline { name := some "default" }]) } : TRConfig) =
      .error .reservedGroupName ∧
    resolveGroups sampleEnv
      ({ groups := some (.list [.inline { name := some "a" }, .pattern "grp/*.js"]) } : TRConfig) =
      .ok [{ name := some "a" }] := by
  refine ⟨(resolveGroups_reserved_and_order sampleEnv
      ({ groups := some (.list [.inline { name := some "default" }]) } : TRConfig)
      [.inline { name := some "default" }] rfl).1
      ⟨{ name := some "default" }, by decide, rfl⟩, ?_⟩
  have h := (resolveGroups_reserved_and_order sampleEnv
    ({ groups := some (.list [.inline { name := some "a" }, .pattern "grp/*.js"]) } : TRConfig)
    [.inline { name := some "a" }, .pattern "grp/*.js"] rfl).2
    (by intro g hg; fin_cases hg <;> decide)
  simpa using h

/-- A record whose entries are all absent, null or correctly typed always
validates; unknown keys are never inspected. -/
theorem validateConfig_ok_of_typed (cfg : List (String × JSVal))
    (hall : ∀ p ∈ cfg, keyTypeOK p.1 p.2) : validateConfig cfg = .ok () := by
  have hstr : validateKeys cfg stringSettings "string" = .ok () :=
    validateKeys_ok cfg _ _ fun k hk v hv =>
      ((hall _ (lookupKey_mem hv)).1 hk)
  have hnum : validateKeys cfg numberSettings "number" = .ok () :=
    validateKeys_ok cfg _ _ fun k hk v hv =>
      ((hall _ (lookupKey_mem hv)).2.1 hk)
  have hbool : validateKeys cfg booleanSettings "boolean" = .ok () :=
    validateKeys_ok cfg _ _ fun k hk v hv =>
      ((hall _ (lookupKey_mem hv)).2.2.1 hk)
  have hesb : ∀ v, lookupKey cfg "esbuildTarget" = some v →
      v = JSVal.null ∨ strOrArr v = true := fun v hv =>
    (hall _ (lookupKey_mem hv)).2.2.2.1 rfl
  have hfil : ∀ v, lookupKey cfg "files" = some v →
      v = JSVal.null ∨ strOrArr v = true := fun v hv =>
    (hall _ (lookupKey_mem hv)).2.2.2.2 rfl
  unfold validateConfig
  rw [hstr, hnum, hbool]
  simp only [exceptBind_ok]
  cases he : lookupKey cfg "esbuildTarget" with
  | none =>
    simp only [exceptBind_ok, exceptPure]
    cases hf : lookupKey cfg "files" with
    | none => rfl
    | some v =>
      rcases hfil v hf with h1 | h1
      · simp [h1]
      · by_cases hn : v = JSVal.null <;> simp [hn, h1]
  | some v =>
    rcases hesb v he with h1 | h1
    · simp only [h1]
      cases hf : lookupKey cfg "files" with
      | none => simp
      | some w =>
        rcases hfil w hf with h2 | h2
        · simp [h2]
        · by_cases hn : w = JSVal.null <;> simp [hn, h2]
    · by_cases hn : v = JSVal.null <;>
        · simp only [hn, h1, if_true, if_pos, exceptBind_ok]
          cases hf : lookupKey cfg "files" with
          | none => simp [hn, h1]
          | some w =>
            rcases hfil w hf with h2 | h2
            · simp [hn, h1, h2]
            · by_cases hn2 : w = JSVal.null <;> simp [hn, h1, hn2, h2]

/-- C5: for every recognized typed key, a present wrong-typed value fails
validation with the error naming that key and the expected type, while a
record whose entries are all absent, null or correctly typed — any unknown
keys unconstrained — always validates. -/
theorem validateConfig_typed_keys :
    (∀ k v, k ∈ stringSettings → v ≠ JSVal.null → typeofJS v ≠ "string" →
      validateConfig [(k, v)] = .error (.configValidation k "string")) ∧
    (∀ k v, k ∈ numberSettings → v ≠ JSVal.null → typeofJS v ≠ "number" →
      validateConfig [(k, v)] = .error (.configValidation k "number")) ∧
    (∀ k v, k ∈ booleanSettings → v ≠ JSVal.null → typeofJS v ≠ "boolean" →
      validateConfig [(k, v)] = .error (.configValidation k "boolean")) ∧
    (∀ v, v ≠ JSVal.null → strOrArr v = false →
      validateConfig [("esbuildTarget", v)] =
        .error (.configValidation "esbuildTarget" "string or array")) ∧
    (∀ v, v ≠ JSVal.null → strOrArr v = false →
      validateConfig [("files", v)] =
        .error (.configValidation "files" "string or an array")) ∧
    (∀ cfg, (∀ p ∈ cfg, keyTypeOK p.1 p.2) → validateConfig cfg = .ok ()) := by
  refine ⟨?_, ?_, ?_, ?_, ?_, ?_⟩
  · intro k v hk hvn hvt
    fin_cases hk <;>
      simp [validateConfig, validateKeys, validate, lookupKey, entryOf,
        stringSettings, numberSettings, booleanSettings, hvn, hvt]
  · intro k v hk hvn hvt
    fin_cases hk <;>
      simp [validateConfig, validateKeys, validate, lookupKey, entryOf,
        stringSettings, numberSettings, booleanSettings, hvn, hvt]
  · intro k v hk hvn hvt
    fin_cases hk <;>
      simp [validateConfig, validateKeys, validate, lookupKey, entryOf,
        stringSettings, numberSettings, booleanSettings, hvn, hvt]
  · intro v hvn hsv
    simp [validateConfig, validateKeys, validate, lookupKey, entryOf,
      stringSettings, numberSettings, booleanSettings, hvn, hsv]
  · intro v hvn hsv
    simp [validateConfig, validateKeys, validate, lookupKey, entryOf,
      stringSettings, numberSettings, booleanSettings, hvn, hsv]
  · exact validateConfig_ok_of_typed

/-- Witness for validation at concrete inputs: a wrong-typed value for one
key of each family fails naming that key, while a record with a correct
number, a null boolean and an unknown key validates. -/
theorem validateConfig_typed_keys_witness :
    validateConfig [("rootDir", JSVal.num 3)] =
      .error (.configValidation "rootDir" "string") ∧
    validateConfig [("port", JSVal.str "p")] =
      .error (.configValidation "port" "number") ∧
    validateConfig [("watch", JSVal.num 1)] =
      .error (.configValidation "watch" "boolean") ∧
    validateConfig [("esbuildTarget", JSVal.bool true)] =
      .error (.configValidation "esbuildTarget" "string or array") ∧
    validateConfig [("files", JSVal.num 0)] =
      .error (.configValidation "files" "string or an array") ∧
    validateConfig [("port", JSVal.num 8080), ("watch", JSVal.null),
      ("someUnknownKey", JSVal.obj 0)] = .ok () := by
  refine ⟨validateConfig_typed_keys.1 "rootDir" (JSVal.num 3) (by decide)
      (by decide) (by decide),
    validateConfig_typed_keys.2.1 "port" (JSVal.str "p") (by decide)
      (by decide) (by decide),
    validateConfig_typed_keys.2.2.1 "watch" (JSVal.num 1) (by decide)
      (by decide) (by decide),
    validateConfig_typed_keys.2.2.2.1 (JSVal.bool true) (by decide) (by decide),
    validateConfig_typed_keys.2.2.2.2.1 (JSVal.num 0) (by decide) (by decide),
    validateConfig_typed_keys.2.2.2.2.2 _ (by decide)⟩

/-- C6 (amended): every successfully resolved configuration has an absolute
string `rootDir` (given the `path.resolve` collaborator contract) and a
numeric port; a merged `rootDir` that is absent or null fails resolution with
the missing-root-dir error (a present non-string `rootDir` is already
rejected by validation, see the counterexample); without a numeric merged
port the resolved port is the port finder's value for preferred candidate
8000. -/
theorem parseConfig_rootDir_port_invariant :
    (∀ env cfg cli res grps, (∀ s, isAbsolute (env.pathResolve s) = true) →
      parseConfig env cfg cli = .ok (res, grps) →
      (∃ s, res.rootDir = some (JSVal.str s) ∧ isAbsolute s = true) ∧
      (∃ n : Int, res.port = some (JSVal.num n))) ∧
    (∀ env cfg cli, isNullish (mergedOf env cfg cli).rootDir = true →
      validateConfig (toRecord (mergedOf env cfg cli)) = .ok () →
      parseConfig env cfg cli = .error .missingRootDir) ∧
    (∀ env cfg cli res grps, isNumOpt (mergedOf env cfg cli).port = false →
      parseConfig env cfg cli = .ok (res, grps) →
      res.port = some (.num (env.getPort 8000))) := by
  refine ⟨?_, ?_, ?_⟩
  · intro env cfg cli res grps habs hok
    obtain ⟨c1, gs1, c2, gs2, c3, hv, h2, h3, h4, h5, hres, hgrps⟩ :=
      parseConfig_ok_destruct hok
    obtain ⟨s, hs, hc1⟩ := resolveRootDir_ok h2
    have hc1rd : c1.rootDir = some (.str (env.pathResolve s)) := by rw [hc1]
    obtain ⟨hprd, -, -, -, -, -, -⟩ := resolvePort_fields env c1
    obtain ⟨n, hpn⟩ := resolvePort_num env c1
    obtain ⟨hfrd, hfpt, -, -, -, -, -, -⟩ := applyGroupFocus_ok_fields h4
    obtain ⟨hnrd, hnpt, -, -, -, -, -⟩ := negotiateLaunchers_ok_fields h5
    obtain ⟨htrd, htpt, -, -, -, -, -, -⟩ := fillTestFramework_fields env c3
    obtain ⟨hrrd, hrpt, -, -, -, -, -, -⟩ :=
      fillReporters_fields (fillTestFramework env c3)
    obtain ⟨hlrd, hlpt, -, -, -, -, -⟩ :=
      fillLogger_fields cfg.debug (fillReporters (fillTestFramework env c3))
    obtain ⟨hard, hapt, -, -⟩ :=
      assemblePlugins_fields (fillLogger cfg.debug (fillReporters (fillTestFramework env c3)))
    constructor
    · refine ⟨env.pathResolve s, ?_, habs s⟩
      rw [hres, hard, hlrd, hrrd, htrd, hnrd, hfrd, hprd, hc1rd]
    · refine ⟨n, ?_⟩
      rw [hres, hapt, hlpt, hrpt, htpt, hnpt, hfpt, hpn]
  · intro env cfg cli hnull hval
    simp [parseConfig, hval, resolveRootDir_nullish hnull]
  · intro env cfg cli res grps hnum hok
    obtain ⟨c1, gs1, c2, gs2, c3, hv, h2, h3, h4, h5, hres, hgrps⟩ :=
      parseConfig_ok_destruct hok
    obtain ⟨s, hs, hc1⟩ := resolveRootDir_ok h2
    have hc1pt : c1.port = (mergedOf env cfg cli).port := by rw [hc1]
    have hnn : ∀ n : Int, c1.port ≠ some (.num n) := by
      intro n hn
      rw [hc1pt] at hn
      rw [hn] at hnum
      simp [isNumOpt] at hnum
    have hpn := @resolvePort_not_num (List Plugin) env c1 hnn
    obtain ⟨hfrd, hfpt, -, -, -, -, -, -⟩ := applyGroupFocus_ok_fields h4
    obtain ⟨hnrd, hnpt, -, -, -, -, -⟩ := negotiateLaunchers_ok_fields h5
    obtain ⟨htrd, htpt, -, -, -, -, -, -⟩ := fillTestFramework_fields env c3
    obtain ⟨hrrd, hrpt, -, -, -, -, -, -⟩ :=
      fillReporters_fields (fillTestFramework env c3)
    obtain ⟨hlrd, hlpt, -, -, -, -, -⟩ :=
      fillLogger_fields cfg.debug (fillReporters (fillTestFramework env c3))
    obtain ⟨hard, hapt, -, -⟩ :=
      assemblePlugins_fields (fillLogger cfg.debug (fillReporters (fillTestFramework env c3)))
    rw [hres, hapt, hlpt, hrpt, htpt, hnpt, hfpt, hpn]

/-- Counterexample to C6 as stated: a merged `rootDir` that is present but
not a string (here the number 5) makes resolution fail with the validation
error naming `rootDir`, not with the missing-root-dir error. -/
theorem parseConfig_rootDir_wrong_type_counterexample :
    isStrOpt (mergedOf sampleEnv { rootDir := some (JSVal.num 5) } {}).rootDir = false ∧
    parseConfig sampleEnv { rootDir := some (JSVal.num 5) } {} =
      .error (.configValidation "rootDir" "string") ∧
    ConfigError.configValidation "rootDir" "string" ≠ ConfigError.missingRootDir := by
  exact ⟨rfl, rfl, by decide⟩

/-- Witness for the rootDir/port invariant: the empty configuration resolves
with an absolute rootDir and the port-finder port; a null `rootDir` fails
with the missing-root-dir error. -/
theorem parseConfig_rootDir_port_invariant_witness :
    ((∃ s, emptyRes.rootDir = some (JSVal.str s) ∧ isAbsolute s = true) ∧
      (∃ n : Int, emptyRes.port = some (JSVal.num n))) ∧
    parseConfig sampleEnv { rootDir := some JSVal.null } {} =
      .error .missingRootDir ∧
    emptyRes.port = some (.num (sampleEnv.getPort 8000)) := by
  refine ⟨parseConfig_rootDir_port_invariant.1 sampleEnv {} {} emptyRes []
      (fun s => rfl) rfl,
    parseConfig_rootDir_port_invariant.2.1 sampleEnv { rootDir := some JSVal.null } {}
      rfl rfl,
    parseConfig_rootDir_port_invariant.2.2 sampleEnv {} {} emptyRes [] rfl rfl⟩

/-- C7: merging is last-writer-wins per key over the ordered sources with
wholesale replacement — illustrated on `port` and on the array-valued
`plugins` — and through the full resolution a user `port` of 9000 with an
empty CLI config survives as exactly 9000, while a port omitted everywhere
becomes the port finder's value. -/
theorem mergeConfigs_last_writer_wins :
    (∀ (d u c : TRConfig) (v : JSVal), c.port = some v →
      (mergeConfigs d u c).port = some v) ∧
    (∀ (d u c : TRConfig) (v : JSVal), c.port = none → u.port = some v →
      (mergeConfigs d u c).port = some v) ∧
    (∀ (d u c : TRConfig), c.port = none → u.port = none →
      (mergeConfigs d u c).port = d.port) ∧
    (∀ (d u c : TRConfig) (ps : List Plugin), c.plugins = some ps →
      (mergeConfigs d u c).plugins = some ps) ∧
    (∀ env, (parseConfig env { port := some (.num 9000) } {}).toOption.map
      (fun p => p.1.port) = some (some (.num 9000))) ∧
    (∀ env, (parseConfig env ({} : TRConfig) {}).toOption.map
      (fun p => p.1.port) = some (some (.num (env.getPort 8000)))) := by
  refine ⟨?_, ?_, ?_, ?_, ?_, ?_⟩
  · intro d u c v h
    simp [mergeConfigs, mergeTwo, ow, h]
  · intro d u c v hc hu
    simp [mergeConfigs, mergeTwo, ow, hc, hu]
  · intro d u c hc hu
    simp [mergeConfigs, mergeTwo, ow, hc, hu]
  · intro d u c ps h
    simp [mergeConfigs, mergeTwo, ow, h]
  · intro env
    have hval : validateConfig (toRecord (mergedOf env { port := some (.num 9000) } {})) =
        .ok () := by
      simp [validateConfig, validateKeys, validate, lookupKey, toRecord, entryOf,
        mergedOf, mergedOfP, mergeConfigs, mergeTwo, cliArgsConfigOf, defaultConfigP,
        ow, typeofJS, stringSettings, numberSettings, booleanSettings]
    simp only [parseConfig]
    rw [hval]
    rfl
  · intro env
    have hval : validateConfig (toRecord (mergedOf env ({} : TRConfig) {})) =
        .ok () := by
      simp [validateConfig, validateKeys, validate, lookupKey, toRecord, entryOf,
        mergedOf, mergedOfP, mergeConfigs, mergeTwo, cliArgsConfigOf, defaultConfigP,
        ow, typeofJS, stringSettings, numberSettings, booleanSettings]
    simp only [parseConfig]
    rw [hval]
    rfl

/-- Witness for the merge policy at concrete inputs. -/
theorem mergeConfigs_last_writer_wins_witness :
    (mergeConfigs ({} : TRConfig) {} { port := some (.num 3) }).port = some (.num 3) ∧
    (mergeConfigs ({} : TRConfig) { port := some (.num 4) } {}).port = some (.num 4) ∧
    (mergeConfigs ({ port := some (.num 5) } : TRConfig) {} {}).port = some (.num 5) ∧
    (mergeConfigs ({ plugins := some [Plugin.user 3] } : TRConfig) {}
      { plugins := some [] }).plugins = some [] ∧
    (parseConfig sampleEnv { port := some (.num 9000) } {}).toOption.map
      (fun p => p.1.port) = some (some (.num 9000)) := by
  exact ⟨mergeConfigs_last_writer_wins.1 _ _ _ _ rfl,
    mergeConfigs_last_writer_wins.2.1 _ _ _ _ rfl rfl,
    (mergeConfigs_last_writer_wins.2.2.1 _ _ _ rfl rfl).trans rfl,
    mergeConfigs_last_writer_wins.2.2.2.1 _ _ _ _ rfl,
    mergeConfigs_last_writer_wins.2.2.2.2.1 sampleEnv⟩

/-- C8 (amended): resolving the same input configuration twice does not give
independent results.  Both resolutions return the plugin list through the
same array reference (slot 1, the input configuration's own plugins array),
the first resolution leaves that array extended with the built-in block, and
the second extends it again — so the second resolution mutates the list the
first resolution returned, and the two observed lists differ. -/
theorem parseConfigSt_shared_plugin_array (ps : List Plugin) :
    ∃ r1 g1 store1 r2 g2 store2,
      parseConfigSt sampleEnv [[], ps]
        { rootDir := some (.str "/a"), plugins := some 1 } {} =
        .ok ((r1, g1), store1) ∧
      parseConfigSt sampleEnv store1
        { rootDir := some (.str "/a"), plugins := some 1 } {} =
        .ok ((r2, g2), store2) ∧
      r1.plugins = some 1 ∧ r2.plugins = some 1 ∧
      store1.getD 1 [] = [Plugin.setViewport, Plugin.emulateMedia,
        Plugin.setUserAgent, Plugin.checker] ++ ps ∧
      store2.getD 1 [] = [Plugin.setViewport, Plugin.emulateMedia,
        Plugin.setUserAgent, Plugin.checker] ++
        ([Plugin.setViewport, Plugin.emulateMedia, Plugin.setUserAgent,
          Plugin.checker] ++ ps) := by
  exact ⟨_, _, _, _, _, _, rfl, rfl, rfl, rfl, rfl, rfl⟩

/-- Counterexample to C8 as stated: resolving the same input twice yields
results that share the plugin-array reference (slot 1) and whose observed
plugin lists differ — the second resolution's insertions land in the array
already returned by the first. -/
theorem parseConfigSt_double_resolution_counterexample :
    runPluginsRef c8run1 = some 1 ∧
    runPluginsRef c8run2 = some 1 ∧
    runStore c8run1 = some c8store1 ∧
    runStoreAt c8run1 1 = some [Plugin.setViewport, Plugin.emulateMedia,
      Plugin.setUserAgent, Plugin.checker, Plugin.user 0] ∧
    runStoreAt c8run2 1 = some [Plugin.setViewport, Plugin.emulateMedia,
      Plugin.setUserAgent, Plugin.checker, Plugin.setViewport,
      Plugin.emulateMedia, Plugin.setUserAgent, Plugin.checker, Plugin.user 0] ∧
    runStoreAt c8run1 1 ≠ runStoreAt c8run2 1 := by
  refine ⟨rfl, rfl, rfl, rfl, rfl, ?_⟩
  decide

/-- C9: with no launcher-family flag and no CLI browsers override, a
`browsers` field set to the empty array is kept as-is — the built-in chrome
default is installed only when the field is entirely absent — and the full
resolution of a configuration with `browsers: []` succeeds returning that
empty list. -/
theorem browsers_empty_array_preserved :
    (∀ (cli : CliArgs) (c : TRConfig), cli.puppeteer = false →
      cli.playwright = false → cli.browsers = none →
      (c.browsers = some [] → negotiateLaunchers cli c = .ok c) ∧
      (c.browsers = none →
        negotiateLaunchers cli c = .ok { c with browsers := some [Launcher.chrome] })) ∧
    (∃ res grps,
      parseConfig sampleEnv ({ browsers := some [] } : TRConfig) {} = .ok (res, grps) ∧
      res.browsers = some []) := by
  constructor
  · intro cli c hp hw hb
    constructor
    · intro hcb
      simp [negotiateLaunchers, hp, hw, hb, hcb]
    · intro hcb
      simp [negotiateLaunchers, hp, hw, hb, hcb]
  · exact ⟨_, _, rfl, rfl⟩

/-- Witness for the empty-browsers behavior at concrete inputs. -/
theorem browsers_empty_array_preserved_witness :
    negotiateLaunchers ({} : CliArgs) ({ browsers := some [] } : TRConfig) =
      .ok { browsers := some [] } ∧
    negotiateLaunchers ({} : CliArgs) ({} : TRConfig) =
      .ok { browsers := some [Launcher.chrome] } :=
  ⟨(browsers_empty_array_preserved.1 {} { browsers := some [] } rfl rfl rfl).1 rfl,
   (browsers_empty_array_preserved.1 {} {} rfl rfl rfl).2 rfl⟩

/-- C10: when neither the user configuration nor the CLI-derived
configuration configures a logger, the default logger built by resolution
carries the debug flag of the ORIGINAL user configuration object — a debug
flag supplied only through CLI arguments (or defaults) has no effect on it. -/
theorem default_logger_uses_user_debug :
    (∀ env cfg (cli : CliArgs) res grps, cfg.logger = none → cli.cfg.logger = none →
      parseConfig env cfg cli = .ok (res, grps) →
      res.logger = some (Logger.default cfg.debug)) ∧
    ((parseConfig sampleEnv ({} : TRConfig)
        ({ cfg := { debug := some (.bool true) } } : CliArgs)).toOption.map
      (fun p => p.1.logger)) = some (some (Logger.default none)) := by
  constructor
  · intro env cfg cli res grps h1 h2 hok
    obtain ⟨c1, gs1, c2, gs2, c3, hv, h2r, h3, h4, h5, hres, hgrps⟩ :=
      parseConfig_ok_destruct hok
    obtain ⟨s, hs, hc1⟩ := resolveRootDir_ok h2r
    have hml : (mergedOf env cfg cli).logger = none := by
      simp [mergedOf, mergedOfP, mergeConfigs, mergeTwo, cliArgsConfigOf,
        defaultConfigP, ow, h1, h2]
    have hc1lg : c1.logger = none := by rw [hc1]; exact hml
    obtain ⟨-, -, -, -, -, hplg, -⟩ := resolvePort_fields env c1
    obtain ⟨-, -, -, -, -, -, hflg, -⟩ := applyGroupFocus_ok_fields h4
    obtain ⟨-, -, -, -, -, -, hnlg⟩ := negotiateLaunchers_ok_fields h5
    obtain ⟨-, -, -, -, -, -, htlg, -⟩ := fillTestFramework_fields env c3
    obtain ⟨-, -, -, -, -, -, hrlg, -⟩ :=
      fillReporters_fields (fillTestFramework env c3)
    obtain ⟨-, -, halg, -⟩ :=
      assemblePlugins_fields (fillLogger cfg.debug (fillReporters (fillTestFramework env c3)))
    have hnone : (fillReporters (fillTestFramework env c3)).logger = none := by
      rw [hrlg, htlg, hnlg, hflg, hplg, hc1lg]
    rw [hres, halg, fillLogger_default hnone]
  · rfl

/-- Witness for the default-logger theorem: the empty configuration resolves
with the default logger carrying an unset debug flag. -/
theorem default_logger_uses_user_debug_witness :
    emptyRes.logger = some (Logger.default none) :=
  default_logger_uses_user_debug.1 sampleEnv {} {} emptyRes [] rfl rfl rfl
